import Mathlib

/-
Verification of the OPSHub ITSM core services against their specification.

Shallow embedding conventions:
* Python dicts with fixed keys become Lean structures; a possibly-missing
  key or a nullable field becomes an `Option`.
* Python timestamps (timezone-aware datetimes) are modelled as rational
  numbers of seconds since the epoch; `(b - a).total_seconds() / 60`
  becomes `(b - a) / 60` over `ℚ`.
* Python truthiness is modelled explicitly where the code relies on it:
  a number is truthy iff nonzero, a string iff nonempty, `None` is falsy,
  a datetime object is always truthy.
* Python `int(x)` (truncation toward zero) is `pyInt`.
* Code that can raise `TypeError` (the SLA sweep hitting a null
  `created_at`) is modelled in the `Except` monad.
-/

namespace OpsHub

/-- Python `int()` applied to a rational: truncation toward zero. -/
def pyInt (q : ℚ) : ℤ := if 0 ≤ q then ⌊q⌋ else -⌊-q⌋

/-- Python truthiness of an optional number: `None` and `0` are falsy. -/
def numTruthy : Option ℚ → Bool
  | none => false
  | some q => decide (q ≠ 0)

/-- Python truthiness of an optional string: `None` and `""` are falsy. -/
def strTruthy : Option String → Bool
  | none => false
  | some s => decide (s ≠ "")

/-- Python `needle in haystack` on strings: substring test. -/
def pyIn (needle haystack : String) : Bool :=
  decide (needle.data <:+: haystack.data)

/- ===== services/itsm_schema.py ===== -/

/-- Entry of one work type in `ITSM_SCHEMA`: allowed statuses and the SLA map. -/
structure SchemaEntry where
  statuses : List String
  sla : List (String × ℕ)

/-- The `ITSM_SCHEMA` table, keys in source order. -/
def ITSM_SCHEMA : List (String × SchemaEntry) :=
  [ ("incident",
      { statuses := ["new", "in_progress", "resolved", "closed"],
        sla := [("priority_1", 60), ("priority_2", 120), ("priority_3", 240)] }),
    ("request",
      { statuses := ["new", "in_progress", "fulfilled", "closed"],
        sla := [("standard", 480)] }),
    ("problem",
      { statuses := ["new", "analysis", "resolved", "closed"],
        sla := [("default", 1440)] }) ]

/-- The SLA map of a work type; `{}` for an unknown work type
(`ITSM_SCHEMA.get(work_type, {}).get("sla", {})`). -/
def slaMap (work_type : String) : List (String × ℕ) :=
  match ITSM_SCHEMA.lookup work_type with
  | some entry => entry.sla
  | none => []

/-- Embedding of `validate_status`. -/
def validate_status (work_type status : String) : Bool :=
  let allowed :=
    match ITSM_SCHEMA.lookup work_type with
    | some entry => entry.statuses
    | none => []
  allowed.contains status

/-- Embedding of `get_sla_target`. The `if priority and priority in schema`
guard uses Python truthiness of the priority string. -/
def get_sla_target (work_type : String) (priority : Option String) : Option ℕ :=
  let schema := slaMap work_type
  match priority with
  | some p =>
    if p ≠ "" then
      match schema.lookup p with
      | some v => some v
      | none => schema.lookup "default"
    else schema.lookup "default"
  | none => schema.lookup "default"

/- ===== services/escalation.py ===== -/

/-- One row of `ESCALATION_MATRIX`. -/
structure EscalationRule where
  threshold : ℚ
  target : String
deriving DecidableEq, Repr

/-- The `ESCALATION_MATRIX` table. -/
def ESCALATION_MATRIX : List (String × EscalationRule) :=
  [ ("priority_1", { threshold := 60, target := "team:incident_managers" }),
    ("priority_2", { threshold := 180, target := "team:service_desk" }),
    ("priority_3", { threshold := 360, target := "team:operations" }) ]

/-- Embedding of `get_escalation_target`; `work_type` is accepted and unused,
as in the source. -/
def get_escalation_target (priority : String) (work_type : String)
    (elapsed_minutes : ℚ) : Option String :=
  match ESCALATION_MATRIX.lookup priority with
  | some rule =>
    if rule.threshold < elapsed_minutes then some rule.target else none
  | none => none

/- ===== services/impact.py ===== -/

/-- A business service as read by the impact calculator; the hourly revenue
figure may be null. -/
structure BusinessService where
  revenue_impact_per_hour : Option ℚ

/-- The part of a work item read by `calculate_business_impact`. -/
structure ImpactWorkItem where
  business_service : Option BusinessService

/-- The result dict of `calculate_business_impact`. -/
structure ImpactResult where
  downtime_minutes : ℚ
  revenue_loss : ℚ
deriving DecidableEq, Repr

/-- Embedding of `calculate_business_impact`; `service.revenue_impact_per_hour
or 0` maps a null (and a zero) rate to `0`. -/
def calculate_business_impact (work_item : ImpactWorkItem)
    (duration_minutes : ℚ) : ImpactResult :=
  match work_item.business_service with
  | none => { downtime_minutes := duration_minutes, revenue_loss := 0 }
  | some service =>
    let hourly_loss := service.revenue_impact_per_hour.getD 0
    { downtime_minutes := duration_minutes,
      revenue_loss := duration_minutes / 60 * hourly_loss }

/- ===== services/automation_engine.py ===== -/

/-- An asset as read by the eligibility evaluator. -/
structure Asset where
  asset_type : String

/-- The part of a work item read by the eligibility evaluator. -/
structure AutoWorkItem where
  work_type : String
  asset : Option Asset
  title : String
  description : String

/-- An `AutomationTriggerCondition` row: three JSON list fields. -/
structure TriggerCondition where
  work_types : List String
  asset_types : List String
  keywords : List String

/-- An `AutomationRule` with its related trigger conditions. -/
structure AutomationRule where
  trigger_conditions : List TriggerCondition

/-- One iteration of the `is_work_item_eligible_for_automation` loop: the
early-exit tests of the source, each negated (a non-empty list is truthy in
Python; a missing asset fails a non-empty `asset_types`). -/
def conditionPasses (work_item : AutoWorkItem) (cond : TriggerCondition) : Bool :=
  !(!cond.work_types.isEmpty && !cond.work_types.contains work_item.work_type) &&
  !(!cond.asset_types.isEmpty &&
    !(match work_item.asset with
      | some a => cond.asset_types.contains a.asset_type
      | none => false)) &&
  !(!cond.keywords.isEmpty &&
    !(cond.keywords.any fun kw =>
      pyIn kw.toLower (work_item.title.toLower ++ work_item.description.toLower)))

/-- Embedding of `is_work_item_eligible_for_automation`: the loop with early
`return False` is the conjunction of `conditionPasses` over the trigger
conditions of the rule. -/
def is_work_item_eligible_for_automation (work_item : AutoWorkItem)
    (rule : AutomationRule) : Bool :=
  rule.trigger_conditions.all (conditionPasses work_item)

/- ===== services/scoring.py ===== -/

/-- The `business_service` sub-dict of a work-item view; absent key, `None`
and the empty dict all collapse to `none` at the `WorkItemView` level. -/
structure BusinessServiceView where
  revenue_impact_per_hour : Option ℚ

/-- The `automation` sub-dict of a work-item view. -/
structure AutomationView where
  success_rate : Option ℚ
  auto_executable : Bool
  eligible : Bool

/-- The `assigned_to` sub-dict of a work-item view. -/
structure AssignedToView where
  id : Option String
  team : Option String

/-- A work-item view as consumed by `calculate_smart_score`: a dict-like object
with the keys the function reads. Timestamps are rational seconds. -/
structure WorkItemView where
  priority : Option String
  sla_target_minutes : Option ℚ
  created_at : Option ℚ
  modified_at : Option ℚ
  business_service : Option BusinessServiceView
  automation : Option AutomationView
  assigned_to : Option AssignedToView

/-- The `priority_map` dict of `calculate_smart_score`. -/
def priority_map : List (String × ℤ) :=
  [("priority_1", 400), ("priority_2", 300), ("priority_3", 200), ("priority_4", 100)]

/-- Component 1 of `calculate_smart_score`:
`priority_map.get(workitem.get("priority"), 0)`. -/
def priorityComponent (w : WorkItemView) : ℤ :=
  match w.priority with
  | some p => (priority_map.lookup p).getD 0
  | none => 0

/-- Component 2 of `calculate_smart_score`. The guard `if sla_target and
created_at` uses Python truthiness: a target of `0` is falsy, a present
datetime is always truthy. `modified_at or datetime.now(...)` picks the
evaluation-time clock `now` when `modified_at` is absent. -/
def slaComponent (w : WorkItemView) (now : ℚ) : ℤ :=
  let reference : ℚ :=
    match w.modified_at with
    | some m => m
    | none => now
  match w.sla_target_minutes, w.created_at with
  | some t, some c =>
    if t = 0 then 0
    else
      let elapsed := (reference - c) / 60
      let remaining := t - elapsed
      if remaining ≤ 0 then 300
      else if remaining ≤ 15 then 250
      else if remaining ≤ 30 then 200
      else if remaining ≤ 60 then 100
      else 0
  | _, _ => 0

/-- The `revenue` local of `calculate_smart_score`: `None` unless a truthy
`business_service` dict carries the `revenue_impact_per_hour` key. -/
def revenueOf (w : WorkItemView) : Option ℚ :=
  match w.business_service with
  | some b => b.revenue_impact_per_hour
  | none => none

/-- Component 3 of `calculate_smart_score`: `if revenue:` is Python truthiness
(present and nonzero); `int(impact / 100000)` truncates toward zero. -/
def impactComponent (w : WorkItemView) : ℤ :=
  match revenueOf w with
  | some r => if r = 0 then 0 else min (pyInt (r / 100000) * 50) 200
  | none => 0

/-- Component 4 of `calculate_smart_score`. -/
def automationComponent (w : WorkItemView) : ℤ :=
  match w.automation with
  | some a =>
    if 80 < a.success_rate.getD 0 ∧ a.auto_executable then 100
    else if a.eligible then 50
    else 0
  | none => 0

/-- Component 5 of `calculate_smart_score`: `if current_user_id and
assigned_to.get("id") == current_user_id` (a `None` or empty user id is
falsy), `elif assigned_to.get("team")`. -/
def assignmentComponent (w : WorkItemView) (current_user_id : Option String) : ℤ :=
  match w.assigned_to with
  | some a =>
    if strTruthy current_user_id ∧ a.id = current_user_id then 75
    else if strTruthy a.team then 50
    else 0
  | none => 0

/-- Embedding of `calculate_smart_score`: the running `score` accumulates the
five component blocks in order; `now` is the evaluation-time clock read by
`datetime.now(timezone.utc)`. -/
def calculate_smart_score (w : WorkItemView) (current_user_id : Option String)
    (now : ℚ) : ℤ :=
  priorityComponent w + slaComponent w now + impactComponent w +
    automationComponent w + assignmentComponent w current_user_id

/- ===== tasks/sla_checks.py ===== -/

/-- A `WorkItem` row as read by the sweep; `created_at` is `Option` so that a
malformed row with a null timestamp is representable. -/
structure SweepWorkItem where
  id : ℕ
  title : String
  status : String
  priority : String
  work_type : String
  created_at : Option ℚ
  sla_target_minutes : ℚ

/-- An alert record emitted by `run_sla_checks`. -/
structure Alert where
  work_item : ℕ
  title : String
  escalation_target : Option String
  elapsed_minutes : ℚ
deriving DecidableEq, Repr

/-- Embedding of `run_sla_checks` at evaluation time `now` (rational seconds).
The status filter is the queryset filter; `now() - wi.created_at` on a null
`created_at` raises `TypeError`, which aborts the whole task, modelled as
`Except.error`. -/
def run_sla_checks (now : ℚ) : List SweepWorkItem → Except String (List Alert)
  | [] => Except.ok []
  | wi :: rest =>
    if wi.status = "new" ∨ wi.status = "in_progress" then
      match wi.created_at with
      | none =>
        Except.error "TypeError: unsupported operand types for subtraction: datetime and NoneType"
      | some c =>
        let elapsed_minutes := (now - c) / 60
        let here : List Alert :=
          if wi.sla_target_minutes < elapsed_minutes then
            [{ work_item := wi.id, title := wi.title,
               escalation_target :=
                 get_escalation_target wi.priority wi.work_type elapsed_minutes,
               elapsed_minutes := elapsed_minutes }]
          else []
        match run_sla_checks now rest with
        | Except.ok alerts => Except.ok (here ++ alerts)
        | Except.error e => Except.error e
    else run_sla_checks now rest



lemma slaMap_cases (wt : String) :
    slaMap wt = [("priority_1", 60), ("priority_2", 120), ("priority_3", 240)] ∨
    slaMap wt = [("standard", 480)] ∨
    slaMap wt = [("default", 1440)] ∨
    slaMap wt = [] := by
  by_cases h1 : wt = "incident"
  · simp [slaMap, ITSM_SCHEMA, List.lookup, h1]
  have e1 : (wt == "incident") = false := beq_eq_false_iff_ne.mpr h1
  by_cases h2 : wt = "request"
  · simp [slaMap, ITSM_SCHEMA, List.lookup, e1, h2]
  have e2 : (wt == "request") = false := beq_eq_false_iff_ne.mpr h2
  by_cases h3 : wt = "problem"
  · simp [slaMap, ITSM_SCHEMA, List.lookup, e1, e2, h3]
  have e3 : (wt == "problem") = false := beq_eq_false_iff_ne.mpr h3
  simp [slaMap, ITSM_SCHEMA, List.lookup, e1, e2, e3]

lemma slaMap_lookup_empty (wt : String) : (slaMap wt).lookup "" = none := by
  rcases slaMap_cases wt with h | h | h | h <;> rw [h] <;> decide

/-- C3: for every work type and priority, `get_sla_target` returns the
per-priority SLA minutes when the priority key exists in the SLA map of that
work type, otherwise the `default` entry when one exists, and otherwise `none`
without raising; in particular incident/priority_2 yields 120, and for the
request work type every priority other than `standard` yields `none` because
its map has no `default` key. -/
theorem C3_thm :
    (∀ wt p v, (slaMap wt).lookup p = some v → get_sla_target wt (some p) = some v)
    ∧ (∀ wt p, (slaMap wt).lookup p = none →
        get_sla_target wt (some p) = (slaMap wt).lookup "default")
    ∧ get_sla_target "incident" (some "priority_2") = some 120
    ∧ (∀ p, p ≠ "standard" → get_sla_target "request" (some p) = none) := by
  refine ⟨?_, ?_, by decide, ?_⟩
  · intro wt p v h
    by_cases hp : p = ""
    · rw [hp] at h; rw [slaMap_lookup_empty] at h; exact absurd h (by simp)
    · simp [get_sla_target, hp, h]
  · intro wt p h
    by_cases hp : p = ""
    · simp [get_sla_target, hp]
    · simp [get_sla_target, hp, h]
  · intro p hp
    by_cases hp0 : p = ""
    · rw [hp0]; decide
    · have e : (p == "standard") = false := beq_eq_false_iff_ne.mpr hp
      simp [get_sla_target, slaMap, ITSM_SCHEMA, List.lookup, hp0, e]

/-- C3 witness: the fallback branch of `C3_thm` applied to the problem work
type at an unknown priority, which falls back to its `default` entry. -/
theorem C3_witness : get_sla_target "problem" (some "priority_9") = some 1440 :=
  (C3_thm.2.1 "problem" "priority_9" (by decide)).trans (by decide)

/-- C4: `get_escalation_target` returns the configured target string exactly
when the priority has a matrix entry and the elapsed minutes strictly exceed
its threshold, and `none` otherwise; in particular priority_1/incident at 61
minutes escalates to team:incident_managers, at 60 or 59 it does not, and
priority_4 (absent from the matrix) never escalates. -/
theorem C4_thm :
    (∀ p wt e rule, ESCALATION_MATRIX.lookup p = some rule →
        (rule.threshold < e → get_escalation_target p wt e = some rule.target)
        ∧ (¬ rule.threshold < e → get_escalation_target p wt e = none))
    ∧ (∀ p wt e, ESCALATION_MATRIX.lookup p = none → get_escalation_target p wt e = none)
    ∧ get_escalation_target "priority_1" "incident" 61 = some "team:incident_managers"
    ∧ get_escalation_target "priority_1" "incident" 60 = none
    ∧ get_escalation_target "priority_1" "incident" 59 = none
    ∧ (∀ wt e, get_escalation_target "priority_4" wt e = none) := by
  refine ⟨?_, ?_, by decide, by decide, by decide, ?_⟩
  · intro p wt e rule h
    constructor <;> intro hc <;> simp [get_escalation_target, h, hc]
  · intro p wt e h
    simp [get_escalation_target, h]
  · intro wt e
    have h : ESCALATION_MATRIX.lookup "priority_4" = none := by decide
    simp [get_escalation_target, h]

/-- C4 witness: `C4_thm` applied to the priority_2 row at 200 elapsed
minutes, strictly above its 180-minute threshold. -/
theorem C4_witness :
    get_escalation_target "priority_2" "incident" 200 = some "team:service_desk" :=
  (C4_thm.1 "priority_2" "incident" 200 { threshold := 180, target := "team:service_desk" }
    (by decide)).1 (by norm_num)

/-- C5: `calculate_business_impact` returns zero revenue loss and passes the
duration through when the work item has no business service, and otherwise
returns (duration / 60) times the hourly revenue rate with a null rate treated
as 0; the function is total, so it never raises. -/
theorem C5_thm :
    (∀ w d, w.business_service = none →
        calculate_business_impact w d = { downtime_minutes := d, revenue_loss := 0 })
    ∧ (∀ w d s, w.business_service = some s →
        calculate_business_impact w d =
          { downtime_minutes := d,
            revenue_loss := d / 60 * s.revenue_impact_per_hour.getD 0 }) := by
  constructor
  · intro w d h
    simp [calculate_business_impact, h]
  · intro w d s h
    simp [calculate_business_impact, h]

/-- C5 witness: `C5_thm` applied to a work item with no business service. -/
theorem C5_witness :
    calculate_business_impact { business_service := none } 30 =
      { downtime_minutes := 30, revenue_loss := 0 } :=
  C5_thm.1 { business_service := none } 30 rfl

/-- C10: a work-item view whose `sla_target_minutes` is present but equal to
0 receives an SLA-urgency contribution of 0, exactly as if the target were
missing, because the truthiness guard treats a zero target like an absent
one. -/
theorem C10_thm : ∀ (w : WorkItemView) (now : ℚ), w.sla_target_minutes = some 0 →
    slaComponent w now = 0 ∧
    slaComponent w now = slaComponent { w with sla_target_minutes := none } now := by
  intro w now h
  cases hc : w.created_at <;> constructor <;> simp [slaComponent, h, hc]

def wZeroEx : WorkItemView :=
  { priority := none, sla_target_minutes := some 0, created_at := some 0,
    modified_at := some 0, business_service := none, automation := none,
    assigned_to := none }

/-- C10 witness: `C10_thm` applied to a view with a present zero target whose
remaining time would otherwise trip the +300 branch. -/
theorem C10_witness : slaComponent wZeroEx 5 = 0 :=
  (C10_thm wZeroEx 5 rfl).1

/-- Specification-side definition for the refinement claim about the
SLA-urgency component: the contribution as the specification words it, a pure
function of the target, the creation time, the optional modification time and
the evaluation-time clock, with the first-match-wins threshold ladder applied
whenever both the target and the creation time are present. -/
def slaUrgencySpec (target created : ℚ) (modified : Option ℚ) (now : ℚ) : ℤ :=
  let reference := modified.getD now
  let elapsed := (reference - created) / 60
  let remaining := target - elapsed
  if remaining ≤ 0 then 300
  else if remaining ≤ 15 then 250
  else if remaining ≤ 30 then 200
  else if remaining ≤ 60 then 100
  else 0

def wSlaZero : WorkItemView :=
  { priority := none, sla_target_minutes := some 0, created_at := some 0,
    modified_at := some 0, business_service := none, automation := none,
    assigned_to := none }

/-- C7 counterexample: a view with `sla_target_minutes` present and equal to
0 and `created_at` present has remaining ≤ 0, so the claimed threshold ladder
(`slaUrgencySpec`) awards +300, but the code awards 0. -/
theorem C7_counterexample :
    slaComponent wSlaZero 0 = 0 ∧ slaUrgencySpec 0 0 (some 0) 0 = 300 := by
  constructor
  · simp [slaComponent, wSlaZero]
  · simp [slaUrgencySpec]

/-- C7 (amended): for every view whose `sla_target_minutes` is present and
nonzero and whose `created_at` is present, the SLA-urgency component equals
the specified threshold ladder over remaining = target − (reference −
created)/60 with reference = `modified_at` when present else the evaluation
clock; when the target or `created_at` is missing — or the target is present
but zero — the component contributes 0. -/
theorem C7_amended_thm :
    (∀ (w : WorkItemView) (now t c : ℚ),
        w.sla_target_minutes = some t → w.created_at = some c → t ≠ 0 →
        slaComponent w now = slaUrgencySpec t c w.modified_at now)
    ∧ (∀ (w : WorkItemView) (now : ℚ),
        w.sla_target_minutes = none ∨ w.created_at = none ∨
          w.sla_target_minutes = some 0 →
        slaComponent w now = 0) := by
  constructor
  · intro w now t c ht hc h0
    cases hm : w.modified_at <;> simp [slaComponent, slaUrgencySpec, ht, hc, h0, hm]
  · intro w now h
    rcases h with h | h | h
    · simp [slaComponent, h]
    · cases hs : w.sla_target_minutes <;> simp [slaComponent, h, hs]
    · cases hc : w.created_at <;> simp [slaComponent, h, hc]

def wC7w : WorkItemView :=
  { priority := none, sla_target_minutes := some 60, created_at := some 0,
    modified_at := some 1800, business_service := none, automation := none,
    assigned_to := none }

/-- C7 witness: `C7_amended_thm` applied to a view with a nonzero target. -/
theorem C7_witness :
    slaComponent wC7w 123 = slaUrgencySpec 60 0 wC7w.modified_at 123 :=
  C7_amended_thm.1 wC7w 123 60 0 rfl rfl (by norm_num)

lemma slaComponent_clock_free (w : WorkItemView) (m : ℚ)
    (hm : w.modified_at = some m) (t1 t2 : ℚ) :
    slaComponent w t1 = slaComponent w t2 := by
  simp [slaComponent, hm]

def wC2 : WorkItemView :=
  { priority := none, sla_target_minutes := some 60, created_at := some 0,
    modified_at := none, business_service := none, automation := none,
    assigned_to := none }

/-- C2 counterexample: on a view with `modified_at` absent and both
`sla_target_minutes` and `created_at` present, two evaluations of
`calculate_smart_score` on the same view and user at different evaluation
times return different scores (100 at clock 0, 300 at clock 7200). -/
theorem C2_counterexample :
    calculate_smart_score wC2 none 0 ≠ calculate_smart_score wC2 none 7200 := by
  have h1 : calculate_smart_score wC2 none 0 = 100 := by
    simp [calculate_smart_score, priorityComponent, slaComponent, impactComponent,
      automationComponent, assignmentComponent, revenueOf, wC2]
    norm_num
  have h2 : calculate_smart_score wC2 none 7200 = 300 := by
    simp [calculate_smart_score, priorityComponent, slaComponent, impactComponent,
      automationComponent, assignmentComponent, revenueOf, wC2]
    norm_num
  rw [h1, h2]
  decide

/-- C2 (amended): `calculate_smart_score` is deterministic for every view
whose `modified_at` is present — the evaluation-time clock then never enters
the computation; when `modified_at` is absent and both the target and
`created_at` are present, the score depends on the clock. -/
theorem C2_amended_thm :
    ∀ (w : WorkItemView) (u : Option String) (t1 t2 : ℚ),
      w.modified_at.isSome = true →
      calculate_smart_score w u t1 = calculate_smart_score w u t2 := by
  intro w u t1 t2 h
  rcases Option.isSome_iff_exists.mp h with ⟨m, hm⟩
  unfold calculate_smart_score
  rw [slaComponent_clock_free w m hm t1 t2]

def wC2mod : WorkItemView :=
  { priority := none, sla_target_minutes := some 60, created_at := some 0,
    modified_at := some 5, business_service := none, automation := none,
    assigned_to := none }

/-- C2 witness: `C2_amended_thm` applied to a view with `modified_at`
present, at two different clock values. -/
theorem C2_witness :
    calculate_smart_score wC2mod none 0 = calculate_smart_score wC2mod none 7200 :=
  C2_amended_thm wC2mod none 0 7200 rfl

lemma pyInt_of_nonneg (q : ℚ) (h : 0 ≤ q) : pyInt q = ⌊q⌋ := by
  simp [pyInt, h]

lemma impactComponent_le_200 (w : WorkItemView) : impactComponent w ≤ 200 := by
  unfold impactComponent
  cases revenueOf w with
  | none => norm_num
  | some r =>
    by_cases h : r = 0
    · simp [h]
    · simp only [if_neg h]
      exact min_le_right _ _

lemma impactComponent_nonneg (w : WorkItemView)
    (h : ∀ r, revenueOf w = some r → 0 ≤ r) : 0 ≤ impactComponent w := by
  unfold impactComponent
  cases hr : revenueOf w with
  | none => norm_num
  | some r =>
    by_cases h0 : r = 0
    · simp [h0]
    · simp only [if_neg h0]
      have hrpos : 0 ≤ r := h r hr
      have hfl : (0:ℤ) ≤ pyInt (r / 100000) := by
        rw [pyInt_of_nonneg _ (by positivity)]
        exact Int.floor_nonneg.mpr (by positivity)
      exact le_min (mul_nonneg hfl (by norm_num)) (by norm_num)

/-- C8: the business-impact component equals min(floor(revenue/100000) × 50,
200) for every present non-negative revenue, is monotone non-decreasing in the
revenue across views, and never exceeds the 200-point cap on any view. -/
theorem C8_thm :
    (∀ (w : WorkItemView) (r : ℚ), revenueOf w = some r → 0 ≤ r →
        impactComponent w = min (⌊r / 100000⌋ * 50) 200)
    ∧ (∀ (w1 w2 : WorkItemView) (r1 r2 : ℚ),
        revenueOf w1 = some r1 → revenueOf w2 = some r2 →
        0 ≤ r1 → r1 ≤ r2 →
        impactComponent w1 ≤ impactComponent w2)
    ∧ (∀ w : WorkItemView, impactComponent w ≤ 200) := by
  have formula : ∀ (w : WorkItemView) (r : ℚ), revenueOf w = some r → 0 ≤ r →
      impactComponent w = min (⌊r / 100000⌋ * 50) 200 := by
    intro w r hr hpos
    unfold impactComponent
    rw [hr]
    by_cases h0 : r = 0
    · subst h0
      norm_num
    · have hpy : pyInt (r / 100000) = ⌊r / 100000⌋ := pyInt_of_nonneg _ (by positivity)
      simp only [if_neg h0, hpy]
  refine ⟨formula, ?_, impactComponent_le_200⟩
  intro w1 w2 r1 r2 h1 h2 hpos hle
  rw [formula w1 r1 h1 hpos, formula w2 r2 h2 (hpos.trans hle)]
  refine min_le_min ?_ le_rfl
  have hfl : ⌊r1 / 100000⌋ ≤ ⌊r2 / 100000⌋ := by gcongr
  exact mul_le_mul_of_nonneg_right hfl (by norm_num)

def wC8 : WorkItemView :=
  { priority := none, sla_target_minutes := none, created_at := none,
    modified_at := none,
    business_service := some { revenue_impact_per_hour := some 250000 },
    automation := none, assigned_to := none }

/-- C8 witness: `C8_thm` applied to a view with hourly revenue 250000, whose
component is min(2 × 50, 200) = 100. -/
theorem C8_witness :
    impactComponent wC8 = min (⌊(250000:ℚ) / 100000⌋ * 50) 200 :=
  C8_thm.1 wC8 250000 rfl (by norm_num)

lemma priorityComponent_bounds (w : WorkItemView) :
    0 ≤ priorityComponent w ∧ priorityComponent w ≤ 400 := by
  unfold priorityComponent
  rcases w.priority with _ | p
  · norm_num
  · by_cases h1 : p = "priority_1"
    · simp [priority_map, List.lookup, h1]
    have e1 : (p == "priority_1") = false := beq_eq_false_iff_ne.mpr h1
    by_cases h2 : p = "priority_2"
    · simp [priority_map, List.lookup, e1, h2]
    have e2 : (p == "priority_2") = false := beq_eq_false_iff_ne.mpr h2
    by_cases h3 : p = "priority_3"
    · simp [priority_map, List.lookup, e1, e2, h3]
    have e3 : (p == "priority_3") = false := beq_eq_false_iff_ne.mpr h3
    by_cases h4 : p = "priority_4"
    · simp [priority_map, List.lookup, e1, e2, e3, h4]
    have e4 : (p == "priority_4") = false := beq_eq_false_iff_ne.mpr h4
    simp [priority_map, List.lookup, e1, e2, e3, e4]

lemma slaComponent_bounds (w : WorkItemView) (now : ℚ) :
    0 ≤ slaComponent w now ∧ slaComponent w now ≤ 300 := by
  unfold slaComponent
  rcases w.modified_at with _ | m <;>
    rcases w.sla_target_minutes with _ | t <;>
      rcases w.created_at with _ | c <;>
        constructor <;> dsimp only <;> (try split_ifs) <;> norm_num

lemma automationComponent_bounds (w : WorkItemView) :
    0 ≤ automationComponent w ∧ automationComponent w ≤ 100 := by
  unfold automationComponent
  rcases w.automation with _ | a
  · norm_num
  · constructor <;> (repeat' split) <;> norm_num

lemma assignmentComponent_bounds (w : WorkItemView) (u : Option String) :
    0 ≤ assignmentComponent w u ∧ assignmentComponent w u ≤ 75 := by
  unfold assignmentComponent
  rcases w.assigned_to with _ | a
  · norm_num
  · constructor <;> (repeat' split) <;> norm_num

/-- C9 (amended): every smart score is at most 1075, and it is non-negative
whenever the revenue figure of the linked business service, when present, is
non-negative; with a negative revenue figure the business-impact component,
and hence the total, can go below 0. -/
theorem C9_amended_thm :
    ∀ (w : WorkItemView) (u : Option String) (now : ℚ),
      calculate_smart_score w u now ≤ 1075 ∧
      ((∀ r, revenueOf w = some r → 0 ≤ r) → 0 ≤ calculate_smart_score w u now) := by
  intro w u now
  have hp := priorityComponent_bounds w
  have hs := slaComponent_bounds w now
  have hi := impactComponent_le_200 w
  have ha := automationComponent_bounds w
  have hg := assignmentComponent_bounds w u
  constructor
  · unfold calculate_smart_score
    linarith [hp.2, hs.2, ha.2, hg.2]
  · intro hrev
    have hin := impactComponent_nonneg w hrev
    unfold calculate_smart_score
    linarith [hp.1, hs.1, ha.1, hg.1]

def wNeg : WorkItemView :=
  { priority := none, sla_target_minutes := none, created_at := none,
    modified_at := none,
    business_service := some { revenue_impact_per_hour := some (-1000000) },
    automation := none, assigned_to := none }

/-- C9 counterexample: a view whose business service carries a revenue
figure of −1000000 scores −500, outside the claimed [0, 1075] range. -/
theorem C9_counterexample :
    calculate_smart_score wNeg none 0 = -500 ∧
    ¬ (0 ≤ calculate_smart_score wNeg none 0) := by
  have h : calculate_smart_score wNeg none 0 = -500 := by
    simp [calculate_smart_score, priorityComponent, slaComponent, impactComponent,
      automationComponent, assignmentComponent, revenueOf, wNeg, pyInt]
    norm_num
  exact ⟨h, by rw [h]; decide⟩

def wC9 : WorkItemView :=
  { priority := some "priority_1", sla_target_minutes := none, created_at := none,
    modified_at := none, business_service := none, automation := none,
    assigned_to := none }

/-- C9 witness: `C9_amended_thm` applied to a priority_1 view with no
business service. -/
theorem C9_witness :
    calculate_smart_score wC9 none 0 ≤ 1075 ∧ 0 ≤ calculate_smart_score wC9 none 0 :=
  ⟨(C9_amended_thm wC9 none 0).1,
   (C9_amended_thm wC9 none 0).2 (by intro r h; simp [revenueOf, wC9] at h)⟩

lemma conditionPasses_iff (wi : AutoWorkItem) (cond : TriggerCondition) :
    conditionPasses wi cond = true ↔
      (cond.work_types ≠ [] → wi.work_type ∈ cond.work_types) ∧
      (cond.asset_types ≠ [] →
        ∃ a, wi.asset = some a ∧ a.asset_type ∈ cond.asset_types) ∧
      (cond.keywords ≠ [] → ∃ kw ∈ cond.keywords,
        kw.toLower.data <:+: (wi.title.toLower ++ wi.description.toLower).data) := by
  unfold conditionPasses
  cases ha : wi.asset <;>
    simp [pyIn, ha, List.isEmpty_iff, Decidable.imp_iff_not_or] <;>
    tauto

/-- C6: the eligibility evaluator returns true iff the work item satisfies
every trigger condition of the rule, where a non-empty `work_types` list
requires membership of the work type of the item, a non-empty `asset_types`
list requires an asset whose type is a member (no asset fails), a non-empty
`keywords` list requires some keyword to be a case-insensitive substring of
the concatenation of title and description, empty fields impose no constraint,
and a rule with no conditions makes every work item eligible. -/
theorem C6_thm :
    (∀ (wi : AutoWorkItem) (rule : AutomationRule),
      is_work_item_eligible_for_automation wi rule = true ↔
        ∀ cond ∈ rule.trigger_conditions,
          (cond.work_types ≠ [] → wi.work_type ∈ cond.work_types) ∧
          (cond.asset_types ≠ [] →
            ∃ a, wi.asset = some a ∧ a.asset_type ∈ cond.asset_types) ∧
          (cond.keywords ≠ [] → ∃ kw ∈ cond.keywords,
            kw.toLower.data <:+: (wi.title.toLower ++ wi.description.toLower).data))
    ∧ (∀ wi : AutoWorkItem,
        is_work_item_eligible_for_automation wi { trigger_conditions := [] } = true)
    ∧ (∀ wi : AutoWorkItem, wi.asset = none →
        is_work_item_eligible_for_automation wi
          { trigger_conditions :=
              [{ work_types := [], asset_types := ["server"], keywords := [] }] }
          = false) := by
  refine ⟨?_, ?_, ?_⟩
  · intro wi rule
    unfold is_work_item_eligible_for_automation
    rw [List.all_eq_true]
    exact forall_congr' fun cond => imp_congr Iff.rfl (conditionPasses_iff wi cond)
  · intro wi
    rfl
  · intro wi ha
    simp [is_work_item_eligible_for_automation, conditionPasses, ha]

def wiC6 : AutoWorkItem :=
  { work_type := "incident", asset := none, title := "disk full", description := "server down" }

/-- C6 witness: `C6_thm` applied to a work item with no asset against a rule
requiring asset type server, which is ineligible. -/
theorem C6_witness :
    is_work_item_eligible_for_automation wiC6
      { trigger_conditions :=
          [{ work_types := [], asset_types := ["server"], keywords := [] }] }
      = false :=
  C6_thm.2.2 wiC6 rfl

def wiBadC1 : SweepWorkItem :=
  { id := 1, title := "bad", status := "new", priority := "priority_1",
    work_type := "incident", created_at := none, sla_target_minutes := 60 }

def wiGoodC1 : SweepWorkItem :=
  { id := 2, title := "good", status := "new", priority := "priority_1",
    work_type := "incident", created_at := some 0, sla_target_minutes := 60 }

/-- C1 counterexample: with one malformed work item (null `created_at`)
ahead of one well-formed breached item, the sweep raises instead of skipping
the malformed item; the well-formed item alone produces its alert. -/
theorem C1_counterexample :
    (run_sla_checks 7200 [wiBadC1, wiGoodC1]).isOk = false ∧
    run_sla_checks 7200 [wiGoodC1] =
      Except.ok [{ work_item := 2, title := "good",
                   escalation_target := some "team:incident_managers",
                   elapsed_minutes := 120 }] := by
  constructor
  · rfl
  · have he : ((7200:ℚ) - 0) / 60 = 120 := by norm_num
    simp [run_sla_checks, wiGoodC1, he, get_escalation_target, ESCALATION_MATRIX,
      List.lookup]
    norm_num

/-- C1 (amended): whenever any open-status work item of the swept collection
has a null `created_at`, `run_sla_checks` aborts with a `TypeError` instead of
skipping it — the sweep returns no alert list at all, not even for the
well-formed items; conversely, whenever every open-status item of the
collection has a non-null `created_at`, the sweep completes without raising
and returns an alert list. -/
theorem C1_amended_thm :
    (∀ (now : ℚ) (items : List SweepWorkItem),
      (∃ wi ∈ items, (wi.status = "new" ∨ wi.status = "in_progress") ∧
        wi.created_at = none) →
      (run_sla_checks now items).isOk = false)
    ∧ (∀ (now : ℚ) (items : List SweepWorkItem),
      (∀ wi ∈ items, (wi.status = "new" ∨ wi.status = "in_progress") →
        wi.created_at ≠ none) →
      (run_sla_checks now items).isOk = true) := by
  constructor
  · intro now items
    induction items with
    | nil =>
      intro h
      simp at h
    | cons wi rest ih =>
      intro h
      rcases h with ⟨x, hx, hopen, hnone⟩
      rcases List.mem_cons.mp hx with rfl | hmem
      · unfold run_sla_checks
        rw [if_pos hopen, hnone]
        rfl
      · have hrec : (run_sla_checks now rest).isOk = false := ih ⟨x, hmem, hopen, hnone⟩
        unfold run_sla_checks
        by_cases hs : wi.status = "new" ∨ wi.status = "in_progress"
        · rw [if_pos hs]
          cases hc : wi.created_at with
          | none => rfl
          | some c =>
            rcases hr : run_sla_checks now rest with e | as
            · rfl
            · rw [hr] at hrec
              exact Bool.noConfusion hrec
        · rw [if_neg hs]
          exact hrec
  · intro now items
    induction items with
    | nil =>
      intro h
      rfl
    | cons wi rest ih =>
      intro h
      have hrest : ∀ wi ∈ rest, (wi.status = "new" ∨ wi.status = "in_progress") →
          wi.created_at ≠ none :=
        fun x hx ho => h x (List.mem_cons_of_mem _ hx) ho
      have hrec : (run_sla_checks now rest).isOk = true := ih hrest
      unfold run_sla_checks
      by_cases hs : wi.status = "new" ∨ wi.status = "in_progress"
      · rw [if_pos hs]
        cases hc : wi.created_at with
        | none => exact absurd hc (h wi (List.mem_cons_self _ _) hs)
        | some c =>
          rcases hr : run_sla_checks now rest with e | as
          · rw [hr] at hrec
            exact Bool.noConfusion hrec
          · rfl
      · rw [if_neg hs]
        exact hrec

/-- C1 witness: `C1_amended_thm` applied to a singleton collection holding one
malformed open item, which aborts, and to a singleton collection holding one
well-formed open item, which completes with an alert list. -/
theorem C1_witness :
    (run_sla_checks 0 [wiBadC1]).isOk = false ∧
    (run_sla_checks 7200 [wiGoodC1]).isOk = true :=
  ⟨C1_amended_thm.1 0 [wiBadC1] ⟨wiBadC1, by simp, Or.inl rfl, rfl⟩,
   C1_amended_thm.2 7200 [wiGoodC1]
     (by intro wi hwi ho; simp at hwi; subst hwi; simp [wiGoodC1])⟩

end OpsHub
